import Mathlib

/-!
Verification of the suite-tree execution engine of `src/lib/test.ts`
(the `run` walker, `collectFailedTests`, and the exit-code computation of
the top-level `test` function), as a shallow embedding.

Modelling conventions:
* JavaScript contexts (`TestContext | null | undefined`) become `Ctx`:
  `TestContext` values are objects carrying the one field the engine reads
  (`timeout`) plus an identity tag, and the engine-internal `null`
  (produced by `noop`) and `undefined` are separate constructors.
* Thrown JavaScript values are `Thrown`: an `Error` object (whose
  `toString` prepends "Error: ") or a raw string (whose `toString` is
  itself, as for the timeout rejection value).
* Asynchronous user code is modelled by its observable settlement: a leaf
  test either settles with a return value, settles by throwing, or never
  settles (`TestBehavior.hang`), in which case the `Promise.race` against
  the timeout gate yields the timeout rejection.  Setup/teardown/skip
  functions settle with `Except Thrown _`.
* Wall-clock time: "now" is a fixed epoch-millisecond integer parameter of
  the walker (the engine only compares it against a skip's `until`), and
  test durations are not modelled (no claim mentions them).
* Each construction of a timeout gate (`timeout(...)` in the source) is
  recorded in an observation trace `gates` with the scope (leaf/group) and
  the millisecond deadline passed to it.
-/

set_option maxHeartbeats 1000000

namespace CascadeTest

/-- A JavaScript value usable as a test context: `undefined`, `null`
(returned by the engine's `noop`), or a `TestContext` object.  The engine
reads only the `timeout` field of a context; `id` is an identity tag so
that distinct objects with equal `timeout` stay distinguishable. -/
inductive Ctx where
  | vundef
  | vnull
  | vobj (timeoutField : Option Int) (id : Nat)
deriving DecidableEq, Repr

/-- JavaScript truthiness of a context value: objects are truthy, `null`
and `undefined` are falsy. -/
def Ctx.truthy : Ctx → Bool
  | .vundef => false
  | .vnull => false
  | .vobj _ _ => true

/-- `c?.timeoutField || d`: the optional-chaining read of the `timeout`
field followed by JavaScript `||`, which falls back to the default when the
field is absent, the receiver is nullish, or the value is falsy (`0`). -/
def effTimeout (c : Ctx) (d : Int) : Int :=
  match c with
  | .vobj (some t) _ => if t = 0 then d else t
  | _ => d

/-- A thrown JavaScript value as the engine observes it: an `Error` object
carrying a message, or a plain string (the timeout gate rejects with a
string). -/
inductive Thrown where
  | errObj (msg : String)
  | rawStr (s : String)
deriving DecidableEq, Repr

/-- `e.toString()` on a thrown value: `Error`'s `toString` is
`"Error: " ++ message`; a string is returned unchanged. -/
def Thrown.toStr : Thrown → String
  | .errObj m => "Error: " ++ m
  | .rawStr s => s

/-- The value returned by a suite's `skip` function, with just enough
JavaScript shape for the guard on line 235 of `test.ts`
(`skipResult && typeof skipResult === 'object' && 'reason' in skipResult
&& 'until' in skipResult`): nullish values, primitives, and objects whose
`reason`/`until` fields may each be present or absent. `until` is an
epoch-millisecond timestamp (a valid date). -/
inductive SkipRet where
  | vundef
  | vnull
  | vbool (b : Bool)
  | vnum (n : Int)
  | vstr (s : String)
  | vobj (reason : Option String) (untilMs : Option Int)
deriving DecidableEq, Repr

/-- The guard of line 235: a truthy object with both a `reason` and an
`until` field.  Primitives fail `typeof === 'object'`, `null`/`undefined`
are falsy, an object missing either field fails the `in` checks. -/
def SkipRet.qualifies : SkipRet → Option (String × Int)
  | .vobj (some r) (some u) => some (r, u)
  | _ => none

/-- Model of `Date.prototype.toISOString` on an epoch-millisecond
timestamp.  The engine treats the rendered string opaquely (it is only
embedded in the expired-skip message), so the ISO-8601 rendering is
abstracted by an injective rendering of the timestamp. -/
def isoString (t : Int) : String := "ISO:" ++ toString t

/-- Observable settlement of a leaf test's invocation: it settles with a
return value (`none` models `null`/`undefined`, normalised to a `null`
error by `R.defaultTo`), settles by throwing, or never settles. -/
inductive TestBehavior where
  | ret (r : Option String)
  | thr (e : Thrown)
  | hang

/-- A suite-tree entry: a leaf test function, or a nested suite with its
reserved keys (`setup`, `teardown`, `skip`, each `Option` with `none`
meaning the key is absent so the `noop` default applies) and its
non-reserved entries in declaration order. -/
inductive Entry where
  | test (fn : Ctx → TestBehavior)
  | group (setup : Option (Ctx → Except Thrown Ctx))
      (teardown : Option (Ctx → Except Thrown Unit))
      (skip : Option (Unit → Except Thrown SkipRet))
      (entries : List (String × Entry))

/-- `InternalTestResult` of `types.ts`: `skipped` is `false` or the reason
string (modelled `Option String`), `error` is `null` or the message. -/
structure InternalTestResult where
  skipped : Option String
  error : Option String
deriving DecidableEq, Repr

/-- A node of the result tree (`TestStructure`/`TestDescription` of
`test.ts`): a bare single-element description, a name paired with a test
outcome, or a name paired with a list of child structures. -/
inductive TestChild where
  | bare (name : String)
  | res (name : String) (r : InternalTestResult)
  | grp (name : String) (children : List TestChild)

/-- `TestStatus` of `types.ts`. -/
inductive Status where
  | passed
  | failed
  | skipped
deriving DecidableEq, Repr

/-- A flattened `TestResult` of `types.ts` (duration omitted: wall-clock
durations are not modelled). -/
structure TestResult where
  name : String
  path : List String
  status : Status
  error : Option String
deriving DecidableEq, Repr

/-- Which of the two gate scopes a `timeout(...)` construction served:
an individual leaf test or a nested suite body. -/
inductive GateScope where
  | leaf
  | group
deriving DecidableEq, Repr

/-- Output of the walker's per-entry loop: the child structures pushed to
`result`, the flattened records pushed to `testResults`, and the trace of
timeout-gate constructions. -/
structure LoopOut where
  children : List TestChild
  results : List TestResult
  gates : List (GateScope × Int)

/-- Output of one `run` invocation: the flattened records and gate trace
accumulated (these survive even when `run` throws, since the source pushes
them into run-scoped arrays), and either the returned structure list or
the thrown value. -/
structure RunOut where
  results : List TestResult
  gates : List (GateScope × Int)
  out : Except Thrown (List TestChild)

def DefaultAssertionTimeout : Int := 5000

def DefaultGroupTimeout : Int := 10000

/-- JavaScript truthiness of a `string | false | null | undefined` slot
(`skippingReason`, `error`): the empty string is falsy. -/
def truthyOptStr : Option String → Bool
  | some s => s ≠ ""
  | none => false

/-- The wrapper of the catch-all at the bottom of `run` (line 360):
`throw new Error("Test group execution failed!: '" + e.toString() + "'")`. -/
def wrapGroupFailure (t : Thrown) : Thrown :=
  .errObj ("Test group execution failed!: '" ++ t.toStr ++ "'")

/-- Lines 232-252 of `test.ts`: evaluate this node's `skip` only when the
inherited `skippingReason` is falsy and a `skip` key is present.  Returns
the (possibly updated) skipping reason, or the single expired-skip
structure returned early, or the value thrown by `skip()` (which the
catch-all at the bottom of `run` will wrap). -/
def evalSkipStep (skip : Option (Unit → Except Thrown SkipRet))
    (skippingReason : Option String) (now : Int) :
    Except Thrown (Sum (Option String) TestChild) :=
  if !truthyOptStr skippingReason then
    match skip with
    | none => .ok (.inl skippingReason)
    | some sk =>
      match sk () with
      | .error t => .error t
      | .ok v =>
        match v.qualifies with
        | some (reason, u) =>
          if now < u then .ok (.inl (some reason))
          else .ok (.inr (.res "skip-expired"
            ⟨none, some ("Test skip expired on " ++ isoString u ++ ". Reason: " ++ reason)⟩))
        | none => .ok (.inl skippingReason)
  else .ok (.inl skippingReason)

/-- Lines 254-273 of `test.ts`: run `setup` only when `skippingReason` is
exactly `undefined` (`none`); with no `setup` key the `noop` default
yields `null`; afterwards, when no `setup` key is present and the parent
context is truthy, the parent context is inherited unchanged.  An error is
the value thrown by the user's setup. -/
def deriveSetup (setup : Option (Ctx → Except Thrown Ctx))
    (skippingReason : Option String) (parentContext : Ctx) :
    Except Thrown Ctx :=
  let r0 : Except Thrown Ctx :=
    if skippingReason = none then
      match setup with
      | some f => f parentContext
      | none => .ok .vnull
    else .ok .vundef
  match r0 with
  | .error e => .error e
  | .ok c => .ok (if setup.isNone && parentContext.truthy then parentContext else c)

mutual

/-- `run` of `test.ts` (lines 225-362) on one suite node, given the
destructured reserved keys and the non-reserved entries.  Console output
and indentation are dropped; everything else is carried over. -/
def runGroup (setup : Option (Ctx → Except Thrown Ctx))
    (teardown : Option (Ctx → Except Thrown Unit))
    (skip : Option (Unit → Except Thrown SkipRet))
    (entries : List (String × Entry))
    (skippingReason : Option String) (parentContext : Ctx)
    (currentPath : List String) (now : Int) : RunOut :=
  match evalSkipStep skip skippingReason now with
  | .error t => ⟨[], [], .error (wrapGroupFailure t)⟩
  | .ok (.inr expired) => ⟨[], [], .ok [expired]⟩
  | .ok (.inl reason) =>
    match deriveSetup setup reason parentContext with
    | .error e =>
      ⟨[], [], .ok [.res "setup-error"
        ⟨none, some ("Setup failed with: '" ++ e.toStr ++ "'")⟩]⟩
    | .ok setupResult =>
      let L := runEntries entries reason setupResult currentPath now
      if truthyOptStr reason then
        ⟨L.results, L.gates, .ok L.children⟩
      else
        match teardown with
        | none => ⟨L.results, L.gates, .ok L.children⟩
        | some td =>
          match td setupResult with
          | .ok _ => ⟨L.results, L.gates, .ok L.children⟩
          | .error t =>
            ⟨L.results, L.gates,
              .error (wrapGroupFailure
                (.errObj ("Teardown failed with: '" ++ t.toStr ++ "'")))⟩
termination_by (sizeOf entries, 1)

/-- The per-key loop of `run` (lines 276-346): each entry yields a child
structure (also on the catch paths), flattened records only where the
source pushes them, and a gate-trace element per `timeout(...)` call. -/
def runEntries (entries : List (String × Entry))
    (skippingReason : Option String) (setupResult : Ctx)
    (currentPath : List String) (now : Int) : LoopOut :=
  match entries with
  | [] => ⟨[], [], []⟩
  | (key, Entry.test fn) :: rest =>
    let testPath := currentPath ++ [key]
    let step : LoopOut :=
      if truthyOptStr skippingReason then
        ⟨[.res key ⟨skippingReason, none⟩],
         [⟨key, testPath, .skipped, none⟩], []⟩
      else
        let ms := effTimeout setupResult DefaultAssertionTimeout
        match fn setupResult with
        | .ret r =>
          ⟨[.res key ⟨none, r⟩],
           [⟨key, testPath, if truthyOptStr r then .failed else .passed,
             if truthyOptStr r then r else none⟩],
           [(.leaf, ms)]⟩
        | .thr t =>
          ⟨[.res key ⟨none, some t.toStr⟩], [], [(.leaf, ms)]⟩
        | .hang =>
          ⟨[.res key ⟨none, some ("Test timed out after " ++ toString ms ++ "ms")⟩],
           [], [(.leaf, ms)]⟩
    let restOut := runEntries rest skippingReason setupResult currentPath now
    ⟨step.children ++ restOut.children, step.results ++ restOut.results,
     step.gates ++ restOut.gates⟩
  | (key, Entry.group s t sk es) :: rest =>
    let ms := effTimeout setupResult DefaultGroupTimeout
    let sub := runGroup s t sk es skippingReason setupResult (currentPath ++ [key]) now
    let step : LoopOut :=
      match sub.out with
      | .ok children => ⟨[.grp key children], sub.results, (.group, ms) :: sub.gates⟩
      | .error t2 =>
        ⟨[.res key ⟨none, some t2.toStr⟩], sub.results, (.group, ms) :: sub.gates⟩
    let restOut := runEntries rest skippingReason setupResult currentPath now
    ⟨step.children ++ restOut.children, step.results ++ restOut.results,
     step.gates ++ restOut.gates⟩
termination_by (sizeOf entries, 0)

end

mutual

/-- `collectFailedTests` of `test.ts` (lines 184-206) on one structure:
a result with a truthy `error` yields one failed record with the full
root-to-leaf path; a group recurses over its children. -/
def collectFailedTests : TestChild → List String → List (List String × String)
  | .bare _, _ => []
  | .res name r, currentPath =>
    match r.error with
    | some e => if e ≠ "" then [(currentPath ++ [name], e)] else []
    | none => []
  | .grp name children, currentPath =>
    collectFailedList children (currentPath ++ [name])

/-- The child loop of `collectFailedTests`: only two-element structures
(`res`/`grp`) are recursed into; bare single-element descriptions are
skipped. -/
def collectFailedList : List TestChild → List String → List (List String × String)
  | [], _ => []
  | c :: rest, p => collectFailedTests c p ++ collectFailedList rest p

end

/-- The top-level `test` of `test.ts`, reduced to the engine outcome: run
the root suite with an empty options record (lines 364-420), and when the
walk returns (rather than throws, in which case the top-level catch only
logs and no exit code is produced — modelled `none`), pair the exit code
(`0` iff `collectFailedTests` finds nothing) with the collected failures
and the flattened records. -/
def testRun (setup : Option (Ctx → Except Thrown Ctx))
    (teardown : Option (Ctx → Except Thrown Unit))
    (skip : Option (Unit → Except Thrown SkipRet))
    (entries : List (String × Entry))
    (label rootPathEntry : String) (now : Int) :
    Option (Nat × List (List String × String) × List TestResult) :=
  let o := runGroup setup teardown skip entries none .vundef [rootPathEntry] now
  match o.out with
  | .error _ => none
  | .ok children =>
    let failed := collectFailedTests (.grp label children) []
    some (if failed = [] then 0 else 1, failed, o.results)

/-! ### Specification-side descriptions of skipped subtrees -/

/-- The structure tree of a fully-skipped subtree: every leaf records
`(skipped := reason, error := null)` and groups recurse.  The shape depends
only on the entry names — not on any `setup`, `teardown` or `skip`
declared below, which a fully-skipped walk never invokes. -/
def skippedChildren : List (String × Entry) → Option String → List TestChild
  | [], _ => []
  | (key, .test _) :: rest, r => .res key ⟨r, none⟩ :: skippedChildren rest r
  | (key, .group _ _ _ es) :: rest, r =>
    .grp key (skippedChildren es r) :: skippedChildren rest r

/-- The flattened records of a fully-skipped subtree: one `skipped` record
per leaf, in pre-order, each with its full path. -/
def skippedResults : List (String × Entry) → List String → List TestResult
  | [], _ => []
  | (key, .test _) :: rest, p =>
    ⟨key, p ++ [key], .skipped, none⟩ :: skippedResults rest p
  | (key, .group _ _ _ es) :: rest, p =>
    skippedResults es (p ++ [key]) ++ skippedResults rest p

/-- Under a truthy (non-empty) skipping reason, the per-entry loop ignores
every user function below it and produces exactly the fully-skipped
structures and records. -/
theorem runEntries_skipTruthy (es : List (String × Entry)) (r : String) (hr : r ≠ "")
    (ctx : Ctx) (p : List String) (now : Int) :
    (runEntries es (some r) ctx p now).children = skippedChildren es (some r) ∧
    (runEntries es (some r) ctx p now).results = skippedResults es p := by
  match es with
  | [] => simp [runEntries, skippedChildren, skippedResults]
  | (key, .test fn) :: rest =>
    have ih := runEntries_skipTruthy rest r hr ctx p now
    simp [runEntries, skippedChildren, skippedResults, truthyOptStr, hr, ih.1, ih.2]
  | (key, .group s t sk es2) :: rest =>
    have ihrest := runEntries_skipTruthy rest r hr ctx p now
    have h1 := fun c => (runEntries_skipTruthy es2 r hr c (p ++ [key]) now).1
    have h2 := fun c => (runEntries_skipTruthy es2 r hr c (p ++ [key]) now).2
    simp [runEntries, runGroup, evalSkipStep, deriveSetup, truthyOptStr, hr,
      skippedChildren, skippedResults, ihrest.1, ihrest.2, h1, h2]
termination_by sizeOf es

/-- C1 (amended: the inherited reason must be truthy, i.e. non-empty — the
source tests `!skippingReason` and `if (skippingReason)`, so an ancestor
reason of `""` is set but does not dominate): a node executed with a
non-empty ancestor-supplied reason produces, for any own `setup`,
`teardown` and `skip` and regardless of descendant `skip` declarations
(which are never invoked — the outcome is a function of the entry names
alone), the fully-skipped tree in which every descendant leaf records
`(skipped := reason, error := null)` and a flattened record with status
`skipped`. -/
theorem ancestorSkipDominates (setup : Option (Ctx → Except Thrown Ctx))
    (td : Option (Ctx → Except Thrown Unit)) (sk : Option (Unit → Except Thrown SkipRet))
    (es : List (String × Entry)) (r : String) (hr : r ≠ "")
    (ctx : Ctx) (p : List String) (now : Int) :
    (runGroup setup td sk es (some r) ctx p now).out = .ok (skippedChildren es (some r)) ∧
    (runGroup setup td sk es (some r) ctx p now).results = skippedResults es p := by
  have h1 := fun c => (runEntries_skipTruthy es r hr c p now).1
  have h2 := fun c => (runEntries_skipTruthy es r hr c p now).2
  simp [runGroup, evalSkipStep, deriveSetup, truthyOptStr, hr, h1, h2]

/-- A nested suite whose own `skip` declaration has already expired, with a
leaf below it — used to exercise skip dominance. -/
def expiredInnerSuite : List (String × Entry) :=
  [("inner", .group none none (some fun _ => .ok (.vobj (some "X") (some 0)))
      [("t", .test fun _ => .ret none)])]

/-- C1 witness: with inherited reason `"R"`, the subtree of
`expiredInnerSuite` is reported fully skipped and the inner (expired!)
`skip` declaration is never consulted. -/
theorem ancestorSkipDominates_witness :
    (runGroup none none none expiredInnerSuite (some "R") .vundef [] 100).out =
      .ok (skippedChildren expiredInnerSuite (some "R")) ∧
    (runGroup none none none expiredInnerSuite (some "R") .vundef [] 100).results =
      skippedResults expiredInnerSuite [] :=
  ancestorSkipDominates none none none expiredInnerSuite "R" (by decide) .vundef [] 100

/-- C1 counterexample: with the ancestor-supplied reason set to the empty
string (a set, but falsy, reason), the descendant node's own `skip` IS
invoked — its expired declaration surfaces as a `skip-expired` failure —
and the descendant leaf `t` records no skipped outcome at all (the
flattened record list is empty, where the claim demands a `skipped`
record for `t`). -/
theorem ancestorSkipDominates_counterexample :
    (runGroup none none none expiredInnerSuite (some "") .vundef [] 100).results = [] ∧
    skippedResults expiredInnerSuite [] =
      [⟨"t", ["inner", "t"], .skipped, none⟩] ∧
    (runGroup none none none expiredInnerSuite (some "") .vundef [] 100).out =
      .ok [.grp "inner"
        [.res "skip-expired" ⟨none, some "Test skip expired on ISO:0. Reason: X"⟩]] := by
  refine ⟨?_, by simp [skippedResults, expiredInnerSuite], ?_⟩ <;>
    simp [runGroup, runEntries, evalSkipStep, deriveSetup, truthyOptStr,
      expiredInnerSuite, SkipRet.qualifies, isoString, wrapGroupFailure] <;> decide

/-- A single leaf test that would fail if it ever ran. -/
def wouldFailLeaf : List (String × Entry) :=
  [("t", .test fun _ => .ret (some "would fail"))]

/-- A single leaf test that passes. -/
def passingLeaf : List (String × Entry) :=
  [("t", .test fun _ => .ret none)]

/-- C2 (amended: in the future-dated branch the declared reason must be
non-empty — a `skip` returning `(reason := "", until := future)` sets the
falsy reason `""`, and the subtree then runs normally): when a node's own
`skip` returns an object with both `reason` and `until`, a strictly
future `until` with non-empty reason skips the node and all descendants
with that reason, while a now-or-past `until` makes the node's execution
return exactly one failing (not skipped) `skip-expired` entry whose
message embeds the ISO timestamp of `until` and the reason, with zero
leaf tests from the subtree executing (no flattened record at all). -/
theorem ownSkipDeclaration (setup : Option (Ctx → Except Thrown Ctx))
    (td : Option (Ctx → Except Thrown Unit)) (es : List (String × Entry))
    (skf : Unit → Except Thrown SkipRet) (reason : String) (u : Int)
    (ctx : Ctx) (p : List String) (now : Int)
    (hsk : skf () = .ok (.vobj (some reason) (some u))) :
    (now < u → reason ≠ "" →
      (runGroup setup td (some skf) es none ctx p now).out =
        .ok (skippedChildren es (some reason)) ∧
      (runGroup setup td (some skf) es none ctx p now).results = skippedResults es p) ∧
    (u ≤ now →
      runGroup setup td (some skf) es none ctx p now =
        ⟨[], [], .ok [.res "skip-expired"
          ⟨none, some ("Test skip expired on " ++ isoString u ++ ". Reason: " ++ reason)⟩]⟩) := by
  constructor
  · intro hlt hr
    have h1 := fun c => (runEntries_skipTruthy es reason hr c p now).1
    have h2 := fun c => (runEntries_skipTruthy es reason hr c p now).2
    simp [runGroup, evalSkipStep, deriveSetup, truthyOptStr, hsk,
      SkipRet.qualifies, hlt, hr, h1, h2]
  · intro hle
    simp [runGroup, evalSkipStep, hsk, SkipRet.qualifies, truthyOptStr,
      not_lt.mpr hle]

/-- C2 witness: a future-dated skip with reason `"R"` over a leaf that
would fail reports the whole subtree skipped. -/
theorem ownSkipDeclaration_witness :
    (runGroup none none (some fun _ => .ok (.vobj (some "R") (some 100)))
        wouldFailLeaf none .vundef [] 0).out =
      .ok (skippedChildren wouldFailLeaf (some "R")) ∧
    (runGroup none none (some fun _ => .ok (.vobj (some "R") (some 100)))
        wouldFailLeaf none .vundef [] 0).results = skippedResults wouldFailLeaf [] :=
  (ownSkipDeclaration none none wouldFailLeaf _ "R" 100 .vundef [] 0 rfl).1
    (by decide) (by decide)

/-- C2 counterexample: a future-dated skip whose declared reason is the
empty string does NOT skip the subtree — the leaf runs and records a
`passed` result instead of the `skipped` outcome the claim requires. -/
theorem ownSkipDeclaration_counterexample :
    (runGroup none none (some fun _ => .ok (.vobj (some "") (some 100)))
        passingLeaf none .vundef [] 0).results =
      [⟨"t", ["t"], .passed, none⟩] ∧
    (runGroup none none (some fun _ => .ok (.vobj (some "") (some 100)))
        passingLeaf none .vundef [] 0).results ≠ skippedResults passingLeaf [] := by
  constructor <;>
    simp [runGroup, runEntries, evalSkipStep, deriveSetup, truthyOptStr,
      passingLeaf, SkipRet.qualifies, skippedResults, effTimeout]

/-- C3: when a node's `setup` throws (or its promise rejects), the node's
whole execution collapses to the single `setup-error` pseudo-entry with
message `Setup failed with: '<message>'`: no flattened record is produced
(no child test ran), no gate is constructed, and the node's own `teardown`
(arbitrary here, even one that would throw) is never invoked.  At the
parent level the failed subtree is recorded as one entry and the sibling
entries after it are processed unchanged. -/
theorem setupFailureShortCircuit (f : Ctx → Except Thrown Ctx) (t : Thrown)
    (td : Option (Ctx → Except Thrown Unit)) (es : List (String × Entry))
    (ctx : Ctx) (p : List String) (now : Int) (hf : f ctx = .error t) :
    runGroup (some f) td none es none ctx p now =
      ⟨[], [], .ok [.res "setup-error"
        ⟨none, some ("Setup failed with: '" ++ t.toStr ++ "'")⟩]⟩ ∧
    (∀ key rest,
      runEntries ((key, .group (some f) td none es) :: rest) none ctx p now =
        ⟨.grp key [.res "setup-error"
            ⟨none, some ("Setup failed with: '" ++ t.toStr ++ "'")⟩] ::
           (runEntries rest none ctx p now).children,
         (runEntries rest none ctx p now).results,
         (.group, effTimeout ctx DefaultGroupTimeout) ::
           (runEntries rest none ctx p now).gates⟩) := by
  have hmain : ∀ p' : List String,
      runGroup (some f) td none es none ctx p' now =
        ⟨[], [], .ok [.res "setup-error"
          ⟨none, some ("Setup failed with: '" ++ t.toStr ++ "'")⟩]⟩ := by
    intro p'
    simp [runGroup, evalSkipStep, deriveSetup, truthyOptStr, hf]
  refine ⟨hmain p, fun key rest => ?_⟩
  simp [runEntries, hmain]

/-- C3 witness: a setup that throws `db down`, with a would-be-failing
leaf below and a teardown that would itself throw, collapses to the single
`setup-error` entry, and a sibling passing leaf after it still runs. -/
theorem setupFailureShortCircuit_witness :
    runGroup (some fun _ => .error (.rawStr "db down"))
        (some fun _ => .error (.rawStr "unreachable")) none wouldFailLeaf
        none .vundef [] 0 =
      ⟨[], [], .ok [.res "setup-error"
        ⟨none, some ("Setup failed with: '" ++ (Thrown.rawStr "db down").toStr ++ "'")⟩]⟩ ∧
    runEntries [("bad", .group (some fun _ => .error (.rawStr "db down"))
          (some fun _ => .error (.rawStr "unreachable")) none wouldFailLeaf)]
        none .vundef [] 0 =
      ⟨.grp "bad" [.res "setup-error"
          ⟨none, some ("Setup failed with: '" ++ (Thrown.rawStr "db down").toStr ++ "'")⟩] ::
         (runEntries [] none .vundef [] 0).children,
       (runEntries [] none .vundef [] 0).results,
       (.group, effTimeout .vundef DefaultGroupTimeout) ::
         (runEntries [] none .vundef [] 0).gates⟩ :=
  ⟨(setupFailureShortCircuit _ _ _ wouldFailLeaf .vundef [] 0 rfl).1,
   (setupFailureShortCircuit _ _ _ wouldFailLeaf .vundef [] 0 rfl).2 "bad" []⟩

/-- C4 (amended: the exception that reaches the caller does carry the
teardown failure, but wrapped by the node's own catch-all — its message is
`Test group execution failed!: 'Error: Teardown failed with: '<message>''`,
which embeds rather than equals `Teardown failed with: '<message>'`): a
non-skipped node whose `teardown` throws does not record the failure as a
per-test outcome of the node; the node's execution itself ends in a thrown
`Error`, and the caller (the parent walker step) catches it and converts
it into a single failed entry for that key. -/
theorem teardownFailurePropagates (tf : Ctx → Except Thrown Unit) (t : Thrown)
    (htf : ∀ c, tf c = .error t) (es : List (String × Entry))
    (ctx : Ctx) (p : List String) (now : Int) :
    (runGroup none (some tf) none es none ctx p now).out =
      .error (wrapGroupFailure (.errObj ("Teardown failed with: '" ++ t.toStr ++ "'"))) ∧
    (∀ key rest,
      (runEntries ((key, .group none (some tf) none es) :: rest) none ctx p now).children =
        .res key ⟨none, some ((wrapGroupFailure
            (.errObj ("Teardown failed with: '" ++ t.toStr ++ "'"))).toStr)⟩ ::
          (runEntries rest none ctx p now).children) := by
  have hmain : ∀ p' : List String,
      (runGroup none (some tf) none es none ctx p' now).out =
        .error (wrapGroupFailure (.errObj ("Teardown failed with: '" ++ t.toStr ++ "'"))) := by
    intro p'
    simp [runGroup, evalSkipStep, deriveSetup, truthyOptStr, htf]
  refine ⟨hmain p, fun key rest => ?_⟩
  simp only [runEntries]
  rw [hmain]
  simp

/-- C4 witness: a teardown throwing the raw string `boom` below an empty
body surfaces to the parent as one failed entry whose error is the
wrapped message. -/
theorem teardownFailurePropagates_witness :
    (runGroup none (some fun _ => .error (.rawStr "boom")) none [] none .vundef [] 0).out =
      .error (wrapGroupFailure
        (.errObj ("Teardown failed with: '" ++ (Thrown.rawStr "boom").toStr ++ "'"))) ∧
    (runEntries [("g", .group none (some fun _ => .error (.rawStr "boom")) none [])]
        none .vundef [] 0).children =
      .res "g" ⟨none, some ((wrapGroupFailure
          (.errObj ("Teardown failed with: '" ++ (Thrown.rawStr "boom").toStr ++ "'"))).toStr)⟩ ::
        (runEntries [] none .vundef [] 0).children :=
  ⟨(teardownFailurePropagates _ _ (fun _ => rfl) [] .vundef [] 0).1,
   (teardownFailurePropagates _ _ (fun _ => rfl) [] .vundef [] 0).2 "g" []⟩

/-- C4 counterexample: the exception propagating out of a node whose
teardown threw `boom` has the wrapped message
`Test group execution failed!: 'Error: Teardown failed with: 'boom''` —
it is not the bare `Teardown failed with: 'boom'` (neither as an `Error`
message nor as a raw string) that the claim announces. -/
theorem teardownFailurePropagates_counterexample :
    (runGroup none (some fun _ => .error (.rawStr "boom")) none []
        none .vundef [] 0).out =
      .error (.errObj "Test group execution failed!: 'Error: Teardown failed with: 'boom''") ∧
    (runGroup none (some fun _ => .error (.rawStr "boom")) none []
        none .vundef [] 0).out ≠
      .error (.errObj "Teardown failed with: 'boom'") ∧
    (runGroup none (some fun _ => .error (.rawStr "boom")) none []
        none .vundef [] 0).out ≠
      .error (.rawStr "Teardown failed with: 'boom'") := by
  refine ⟨?_, ?_, ?_⟩ <;>
    simp [runGroup, runEntries, evalSkipStep, deriveSetup, truthyOptStr,
      wrapGroupFailure, Thrown.toStr] <;> decide

/-- The structure entry the per-key loop records for a nested suite, as a
function of the nested run's own settlement alone: the returned structure
list on normal return, the stringified thrown value on a throw.  (The
group-scope timeout gate plays no part: the source awaits `run` directly
at line 331 with the gate's `timeoutPromise` of line 330 left unused and
cancelled at line 338, so no third, timeout-rejection case exists.) -/
def groupEntryOf (key : String) (o : Except Thrown (List TestChild)) : TestChild :=
  match o with
  | .ok cs => .grp key cs
  | .error t => .res key ⟨none, some t.toStr⟩

/-- A node with a `setup` installing a fixed context and no `teardown` or
`skip` wraps its per-entry loop unchanged. -/
theorem runGroup_simpleWrap (es : List (String × Entry)) (c ctx0 : Ctx)
    (p : List String) (now : Int) :
    runGroup (some fun _ => .ok c) none none es none ctx0 p now =
      ⟨(runEntries es none c p now).results, (runEntries es none c p now).gates,
        .ok (runEntries es none c p now).children⟩ := by
  simp [runGroup, evalSkipStep, deriveSetup, truthyOptStr]

/-- The loop on a sole nested-suite entry: one group-scope gate with the
group deadline, and then exactly the nested run's records, gates and
settlement — the nested run's output is recorded as-is, with no case in
which the gate's deadline elapsing replaces it. -/
theorem runEntries_singleGroup (key : String) (s2 : Option (Ctx → Except Thrown Ctx))
    (t2 : Option (Ctx → Except Thrown Unit)) (sk2 : Option (Unit → Except Thrown SkipRet))
    (es2 : List (String × Entry)) (reason : Option String) (c : Ctx)
    (p : List String) (now : Int) :
    runEntries [(key, .group s2 t2 sk2 es2)] reason c p now =
      ⟨[groupEntryOf key (runGroup s2 t2 sk2 es2 reason c (p ++ [key]) now).out],
       (runGroup s2 t2 sk2 es2 reason c (p ++ [key]) now).results,
       (GateScope.group, effTimeout c DefaultGroupTimeout) ::
         (runGroup s2 t2 sk2 es2 reason c (p ++ [key]) now).gates⟩ := by
  cases hout : (runGroup s2 t2 sk2 es2 reason c (p ++ [key]) now).out <;>
    simp [runEntries, groupEntryOf, hout]

/-- C5 (amended: two corrections. First, the context's `timeout` overrides
a default only when present AND truthy — `setupResult?.timeout || Default`
falls back when the field holds `0`.  Second, a nested suite's body is NOT
raced against the group deadline: the source constructs the group-scope
gate with `effTimeout` of the active context and the 10000 ms default and
cancels it afterwards, but awaits the nested run directly — lines 328-338
never use the gate's promise — so the recorded entry is always the nested
run's own settlement and a suite body exceeding its budget produces no
timeout failure): a leaf test that never settles records exactly
`Test timed out after <ms>ms` with `<ms>` the effective assertion deadline
(`effTimeout` of the active context, default 5000 ms), while for any
nested suite the group-scope gate is constructed with the group deadline
and the outcome recorded for it is `groupEntryOf` of the nested run's
settlement — a function with no timeout case. -/
theorem timeoutGateDeadlines (k : String) (ctx ctx0 : Ctx) (p : List String) (now : Int)
    (s2 : Option (Ctx → Except Thrown Ctx)) (t2 : Option (Ctx → Except Thrown Unit))
    (sk2 : Option (Unit → Except Thrown SkipRet)) (es2 : List (String × Entry)) :
    (runGroup (some fun _ => .ok ctx) none none [(k, .test fun _ => .hang)]
        none ctx0 p now).out =
      .ok [.res k ⟨none, some ("Test timed out after "
        ++ toString (effTimeout ctx DefaultAssertionTimeout) ++ "ms")⟩] ∧
    (runGroup (some fun _ => .ok ctx) none none [(k, .group s2 t2 sk2 es2)]
        none ctx0 p now).gates =
      (GateScope.group, effTimeout ctx DefaultGroupTimeout) ::
        (runGroup s2 t2 sk2 es2 none ctx (p ++ [k]) now).gates ∧
    (runGroup (some fun _ => .ok ctx) none none [(k, .group s2 t2 sk2 es2)]
        none ctx0 p now).out =
      .ok [groupEntryOf k (runGroup s2 t2 sk2 es2 none ctx (p ++ [k]) now).out] ∧
    (runGroup (some fun _ => .ok ctx) none none [(k, .group s2 t2 sk2 es2)]
        none ctx0 p now).results =
      (runGroup s2 t2 sk2 es2 none ctx (p ++ [k]) now).results := by
  refine ⟨?_, ?_, ?_, ?_⟩
  · simp [runGroup, runEntries, evalSkipStep, deriveSetup, truthyOptStr]
  all_goals rw [runGroup_simpleWrap, runEntries_singleGroup]

/-- C5 counterexample, both failing parts of the claim at concrete inputs.
With the active context's `timeout` present but `0`, the claim's effective
timeout would be 0 ms, yet the recorded failure says
`Test timed out after 5000ms` — the `||` fallback discards a
present-but-falsy override.  And with a group deadline of 1 ms (outer
context `timeout: 1`) over a nested suite whose own setup restores the
5000 ms leaf default and whose leaf never settles, the group's entry is
the nested structure containing the leaf's 5000 ms timeout — not the
`Test timed out after 1ms` failure entry that racing the suite body
against the group deadline would record. -/
theorem timeoutGateDeadlines_counterexample :
    (runGroup (some fun _ => .ok (.vobj (some 0) 7)) none none
        [("t", .test fun _ => .hang)] none .vundef [] 0).out =
      .ok [.res "t" ⟨none, some "Test timed out after 5000ms"⟩] ∧
    "Test timed out after 5000ms" ≠ "Test timed out after 0ms" ∧
    (runGroup (some fun _ => .ok (.vobj (some 1) 0)) none none
        [("G", .group (some fun _ => .ok (.vobj none 1)) none none
            [("t", .test fun _ => .hang)])]
        none .vundef [] 0) =
      ⟨[], [(.group, 1), (.leaf, 5000)],
        .ok [.grp "G" [.res "t" ⟨none, some "Test timed out after 5000ms"⟩]]⟩ ∧
    (runGroup (some fun _ => .ok (.vobj (some 1) 0)) none none
        [("G", .group (some fun _ => .ok (.vobj none 1)) none none
            [("t", .test fun _ => .hang)])]
        none .vundef [] 0).out ≠
      .ok [.res "G" ⟨none, some "Test timed out after 1ms"⟩] := by
  refine ⟨?_, by decide, ?_, ?_⟩ <;>
    simp [runGroup, runEntries, evalSkipStep, deriveSetup, truthyOptStr, effTimeout,
      DefaultAssertionTimeout, DefaultGroupTimeout] <;> decide

/-- The `InternalTestResult` a non-skipped leaf records, as a function of
the observable settlement of its invocation and the effective assertion
timeout: the returned value becomes `error` (nullish normalised to
`null`), a thrown value is stringified, and a never-settling test gets the
timeout message. -/
def leafResult (b : TestBehavior) (ms : Int) : InternalTestResult :=
  match b with
  | .ret r => ⟨none, r⟩
  | .thr t => ⟨none, some t.toStr⟩
  | .hang => ⟨none, some ("Test timed out after " ++ toString ms ++ "ms")⟩

/-- The per-entry loop applies a sole leaf's function to exactly the
setup-derived context. -/
theorem runEntries_singleLeaf (k : String) (fn : Ctx → TestBehavior) (c : Ctx)
    (p : List String) (now : Int) :
    (runEntries [(k, .test fn)] none c p now).children =
      [.res k (leafResult (fn c) (effTimeout c DefaultAssertionTimeout))] := by
  cases hfn : fn c <;> simp [runEntries, truthyOptStr, leafResult, hfn]

/-- With no `setup` key and a present (non-`undefined`) parent context,
the derived context is the parent context itself: `null` flows through the
`noop` default unchanged, and a truthy context is inherited by the
explicit `setup === noop && parentContext` branch. -/
theorem deriveSetup_noSetup (c : Ctx) (hc : c ≠ .vundef) :
    deriveSetup none none c = .ok c := by
  cases c with
  | vundef => exact absurd rfl hc
  | vnull => simp [deriveSetup, Ctx.truthy]
  | vobj t i => simp [deriveSetup, Ctx.truthy]

/-- A suite with no reserved keys and one leaf runs the leaf on exactly
the (present) parent context. -/
theorem runGroup_noSetup_singleLeaf (k : String) (fn : Ctx → TestBehavior) (c : Ctx)
    (p : List String) (now : Int) (hc : c ≠ .vundef) :
    (runGroup none none none [(k, .test fn)] none c p now).out =
      .ok [.res k (leafResult (fn c) (effTimeout c DefaultAssertionTimeout))] := by
  simp [runGroup, evalSkipStep, truthyOptStr, deriveSetup_noSetup c hc,
    runEntries_singleLeaf]

/-- C6: a suite node without its own `setup` passes the parent context on
unchanged — a leaf below it, and a leaf inside a nested `setup`-less
suite below it, are invoked on exactly the parent context value (for any
present parent context, `null` included); a node WITH `setup` passes on
exactly the value its setup settled with, whatever the parent context
was. -/
theorem contextCascade (k k2 : String) (fn : Ctx → TestBehavior) (ctx : Ctx)
    (p : List String) (now : Int) :
    (ctx ≠ .vundef →
      (runGroup none none none [(k, .test fn)] none ctx p now).out =
        .ok [.res k (leafResult (fn ctx) (effTimeout ctx DefaultAssertionTimeout))] ∧
      (runGroup none none none [(k, .group none none none [(k2, .test fn)])]
          none ctx p now).out =
        .ok [.grp k [.res k2 (leafResult (fn ctx) (effTimeout ctx DefaultAssertionTimeout))]]) ∧
    (∀ (f : Ctx → Except Thrown Ctx) (c' : Ctx), f ctx = .ok c' →
      (runGroup (some f) none none [(k, .test fn)] none ctx p now).out =
        .ok [.res k (leafResult (fn c') (effTimeout c' DefaultAssertionTimeout))]) := by
  constructor
  · intro hctx
    refine ⟨runGroup_noSetup_singleLeaf k fn ctx p now hctx, ?_⟩
    have hsub := runGroup_noSetup_singleLeaf k2 fn ctx (p ++ [k]) now hctx
    simp [runGroup, runEntries, evalSkipStep, truthyOptStr,
      deriveSetup_noSetup ctx hctx, hsub]
    cases hfn : fn ctx <;> simp [leafResult, hfn]
  · intro f c' hf
    have : deriveSetup (some f) none ctx = .ok c' := by
      simp [deriveSetup, hf]
    simp [runGroup, evalSkipStep, truthyOptStr, this, runEntries_singleLeaf]

/-- C6 witness: with parent context an object (timeout 7, id 3), a
setup-less node passes it verbatim to its leaf and through a nested
setup-less suite, while a node whose setup returns a fresh object (id 4)
passes that object instead. -/
theorem contextCascade_witness :
    ((runGroup none none none [("t", .test fun c => .ret (some (toString (repr c))))]
        none (.vobj (some 7) 3) [] 0).out =
      .ok [.res "t" (leafResult (TestBehavior.ret (some (toString (repr (Ctx.vobj (some 7) 3)))))
        (effTimeout (.vobj (some 7) 3) DefaultAssertionTimeout))] ∧
    (runGroup none none none
        [("t", .group none none none [("t2", .test fun c => .ret (some (toString (repr c))))])]
        none (.vobj (some 7) 3) [] 0).out =
      .ok [.grp "t" [.res "t2" (leafResult
        (TestBehavior.ret (some (toString (repr (Ctx.vobj (some 7) 3)))))
        (effTimeout (.vobj (some 7) 3) DefaultAssertionTimeout))]]) ∧
    (runGroup (some fun _ => .ok (.vobj none 4)) none none
        [("t", .test fun c => .ret (some (toString (repr c))))]
        none (.vobj (some 7) 3) [] 0).out =
      .ok [.res "t" (leafResult (TestBehavior.ret (some (toString (repr (Ctx.vobj none 4)))))
        (effTimeout (.vobj none 4) DefaultAssertionTimeout))] :=
  ⟨(contextCascade "t" "t2" (fun c => .ret (some (toString (repr c))))
      (.vobj (some 7) 3) [] 0).1 (by decide),
   (contextCascade "t" "t2" (fun c => .ret (some (toString (repr c))))
      (.vobj (some 7) 3) [] 0).2 _ _ rfl⟩

/-! ### Declaration order and pre-order of the flattened results (C7) -/

/-- A nested suite `G` holding one leaf that would fail. -/
def suiteG : List (String × Entry) :=
  [("G", .group none none none wouldFailLeaf)]

/-- When the top-level walk returns, the exit code is `0` exactly when the
collected failed-test list is empty and `1` exactly when it is not. -/
theorem exitCodeGeneral (s : Option (Ctx → Except Thrown Ctx))
    (t : Option (Ctx → Except Thrown Unit)) (sk : Option (Unit → Except Thrown SkipRet))
    (es : List (String × Entry)) (label r0 : String) (now : Int)
    (c : Nat) (f : List (List String × String)) (rs : List TestResult)
    (h : testRun s t sk es label r0 now = some (c, f, rs)) :
    (c = 0 ↔ f = []) ∧ (c = 1 ↔ f ≠ []) := by
  simp only [testRun] at h
  cases ho : (runGroup s t sk es none .vundef [r0] now).out with
  | error e => rw [ho] at h; simp at h
  | ok children =>
    rw [ho] at h
    simp only [Option.some.injEq, Prod.mk.injEq] at h
    obtain ⟨hc, hf, hrs⟩ := h
    by_cases hemp : collectFailedTests (.grp label children) [] = []
    · subst hf
      simp [hemp] at hc
      subst hc
      simp [hemp]
    · subst hf
      simp [hemp] at hc
      subst hc
      simp [hemp]

/-- A future-dated top-level skip over `suiteG`: the leaf is recorded
skipped, nothing is collected as failed, exit code 0. -/
theorem scenarioFutureSkip :
    testRun none none (some fun _ => .ok (.vobj (some "x") (some 100)))
      suiteG "lbl" "root" 0 =
    some (0, [], [⟨"t", ["root", "G", "t"], .skipped, none⟩]) := by
  simp [testRun, runGroup, runEntries, evalSkipStep, deriveSetup, truthyOptStr,
    SkipRet.qualifies, suiteG, wouldFailLeaf, collectFailedTests, collectFailedList] <;>
    decide

/-- The same skip declaration after its `until` has passed: the expired
skip is collected as a failure, exit code 1, and no leaf ran. -/
theorem scenarioExpiredSkip :
    testRun none none (some fun _ => .ok (.vobj (some "x") (some 100)))
      suiteG "lbl" "root" 200 =
    some (1, [(["lbl", "skip-expired"], "Test skip expired on ISO:100. Reason: x")], []) := by
  simp [testRun, runGroup, runEntries, evalSkipStep, deriveSetup, truthyOptStr,
    SkipRet.qualifies, isoString, suiteG, wouldFailLeaf, collectFailedTests,
    collectFailedList] <;> decide

/-- A throwing top-level setup: the setup failure is collected as a
failure, exit code 1, and no leaf ran. -/
theorem scenarioSetupFail :
    testRun (some fun _ => .error (.rawStr "boom")) none none
      suiteG "lbl" "root" 0 =
    some (1, [(["lbl", "setup-error"], "Setup failed with: 'boom'")], []) := by
  simp [testRun, runGroup, runEntries, evalSkipStep, deriveSetup, truthyOptStr,
    Thrown.toStr, suiteG, wouldFailLeaf, collectFailedTests, collectFailedList] <;>
    decide

/-- C8: whenever the top-level invocation yields an exit status, it is 0
exactly when the collected failed-test list is empty and 1 exactly when a
failure was collected; an ordinary (future-dated) skip collects nothing
and exits 0 even over a leaf that would fail, while an expired skip and a
setup failure each collect a failure and exit 1. -/
theorem exitCodeSemantics :
    (∀ (s : Option (Ctx → Except Thrown Ctx)) (t : Option (Ctx → Except Thrown Unit))
      (sk : Option (Unit → Except Thrown SkipRet)) (es : List (String × Entry))
      (label r0 : String) (now : Int) (c : Nat)
      (f : List (List String × String)) (rs : List TestResult),
      testRun s t sk es label r0 now = some (c, f, rs) →
      ((c = 0 ↔ f = []) ∧ (c = 1 ↔ f ≠ []))) ∧
    testRun none none (some fun _ => .ok (.vobj (some "x") (some 100)))
      suiteG "lbl" "root" 0 =
      some (0, [], [⟨"t", ["root", "G", "t"], .skipped, none⟩]) ∧
    testRun none none (some fun _ => .ok (.vobj (some "x") (some 100)))
      suiteG "lbl" "root" 200 =
      some (1, [(["lbl", "skip-expired"], "Test skip expired on ISO:100. Reason: x")], []) ∧
    testRun (some fun _ => .error (.rawStr "boom")) none none
      suiteG "lbl" "root" 0 =
      some (1, [(["lbl", "setup-error"], "Setup failed with: 'boom'")], []) :=
  ⟨fun s t sk es label r0 now c f rs h => exitCodeGeneral s t sk es label r0 now c f rs h,
   scenarioFutureSkip, scenarioExpiredSkip, scenarioSetupFail⟩

/-- C8 witness: the general exit-code equivalence applied to the concrete
future-dated-skip run, whose hypothesis is discharged by the concrete
evaluation. -/
theorem exitCodeSemantics_witness :
    ((0 : Nat) = 0 ↔ ([] : List (List String × String)) = []) ∧
    ((0 : Nat) = 1 ↔ ([] : List (List String × String)) ≠ []) :=
  exitCodeSemantics.1 none none (some fun _ => .ok (.vobj (some "x") (some 100)))
    suiteG "lbl" "root" 0 0 [] [⟨"t", ["root", "G", "t"], .skipped, none⟩]
    scenarioFutureSkip

/-! ### Failure collection (C9) -/

/-- The claim's recursive-descent reading of failure collection, as a
relation: a result entry whose `error` is a non-null, truthy (non-empty)
string fails at its full root-to-leaf path; a group relays a failure of
any of its children; a bare single-element description relays nothing. -/
inductive FailAt : TestChild → List String → List String → String → Prop where
  | res : ∀ name r p e, r.error = some e → e ≠ "" →
      FailAt (.res name r) p (p ++ [name]) e
  | grp : ∀ name children p c q e, c ∈ children → FailAt c (p ++ [name]) q e →
      FailAt (.grp name children) p q e

/-- Membership in the child loop of `collectFailedTests` is membership in
some child's collection. -/
theorem mem_collectFailedList (cs : List TestChild) (p q : List String) (e : String) :
    (q, e) ∈ collectFailedList cs p ↔ ∃ c ∈ cs, (q, e) ∈ collectFailedTests c p := by
  induction cs with
  | nil => simp [collectFailedList]
  | cons c rest ih => simp [collectFailedList, ih]

/-- Soundness of the relation: every `FailAt` derivation is collected. -/
theorem FailAt_mem_collect (c : TestChild) (p q : List String) (e : String)
    (h : FailAt c p q e) : (q, e) ∈ collectFailedTests c p := by
  induction h with
  | res name r p2 e2 he hne => simp [collectFailedTests, he, hne]
  | grp name children p2 c2 q2 e2 hc2 hf ih =>
    rw [show collectFailedTests (.grp name children) p2 =
        collectFailedList children (p2 ++ [name]) from rfl,
      mem_collectFailedList]
    exact ⟨c2, hc2, ih⟩

/-- Completeness of the relation: everything collected has a `FailAt`
derivation. -/
theorem mem_collect_FailAt (c : TestChild) (p q : List String) (e : String)
    (h : (q, e) ∈ collectFailedTests c p) : FailAt c p q e := by
  match c with
  | .bare n => simp [collectFailedTests] at h
  | .res n r =>
    cases he : r.error with
    | none => simp [collectFailedTests, he] at h
    | some e2 =>
      by_cases hne : e2 = ""
      · simp [collectFailedTests, he, hne] at h
      · simp [collectFailedTests, he, hne] at h
        obtain ⟨hq, hee⟩ := h
        subst hq
        subst hee
        exact FailAt.res n r p _ he hne
  | .grp n cs =>
    rw [show collectFailedTests (.grp n cs) p = collectFailedList cs (p ++ [n]) from rfl,
      mem_collectFailedList] at h
    obtain ⟨c2, hc2, hm⟩ := h
    exact FailAt.grp n cs p c2 q e hc2 (mem_collect_FailAt c2 (p ++ [n]) q e hm)
termination_by sizeOf c
decreasing_by
  all_goals
    have h1 := List.sizeOf_lt_of_mem hc2
    simp_wf
    omega

/-- C9 (amended: the collected entries are those whose outcome's `error`
is truthy, i.e. non-null AND non-empty — the source tests `content.error`
by truthiness, so an entry with `error = ""` is excluded even though `""`
is non-null): the failed-test list contains exactly the entries reachable
by recursive descent whose outcome has a truthy error, each with its full
root-to-leaf path, and single-element bare descriptions are never
traversed and contribute nothing (the relation has no rule for them). -/
theorem failedCollection (c : TestChild) (p q : List String) (e : String) :
    (q, e) ∈ collectFailedTests c p ↔ FailAt c p q e :=
  ⟨mem_collect_FailAt c p q e, FailAt_mem_collect c p q e⟩

/-- C9 counterexample: an entry whose outcome carries the non-null but
empty (falsy) error `""` is NOT collected, contradicting the claim's
"exactly the entries whose outcome has a non-null error". -/
theorem failedCollection_counterexample :
    collectFailedTests (.res "t" ⟨none, some ""⟩) [] = [] ∧
    (⟨none, some ""⟩ : InternalTestResult).error ≠ none := by
  constructor
  · simp [collectFailedTests]
  · simp

/-! ### Non-qualifying skip return values (C10) -/

/-- C10: when a node's `skip` returns any value that is not an object
with both a `reason` and an `until` field (`qualifies` is `none`: a
string, number, boolean, nullish value, or an object missing a field),
the node behaves exactly as if no `skip` key had been declared — same
structures, same flattened records, same gates, same thrown value, with
setup, children and teardown all running normally. -/
theorem nonQualifyingSkipIgnored (s : Option (Ctx → Except Thrown Ctx))
    (t : Option (Ctx → Except Thrown Unit)) (es : List (String × Entry))
    (skf : Unit → Except Thrown SkipRet) (v : SkipRet)
    (hv : skf () = .ok v) (hq : v.qualifies = none)
    (reason : Option String) (ctx : Ctx) (p : List String) (now : Int) :
    runGroup s t (some skf) es reason ctx p now =
      runGroup s t none es reason ctx p now := by
  have hstep : evalSkipStep (some skf) reason now = evalSkipStep none reason now := by
    cases htr : truthyOptStr reason <;> simp [evalSkipStep, htr, hv, hq]
  unfold runGroup
  rw [hstep]

/-- C10 witness: a `skip` returning the string `"nope"` leaves a passing
leaf suite exactly as if no skip were declared. -/
theorem nonQualifyingSkipIgnored_witness :
    runGroup none none (some fun _ => .ok (.vstr "nope")) passingLeaf none .vundef [] 0 =
      runGroup none none none passingLeaf none .vundef [] 0 :=
  nonQualifyingSkipIgnored none none passingLeaf (fun _ => .ok (.vstr "nope"))
    (.vstr "nope") rfl rfl none .vundef [] 0

end CascadeTest
